import Mathlib

/-!
Verification of the string-sizing core of `solar_platform`
(`src/solar_platform/modules/string_sizing.py`).

The embedding works over exact rationals (`ℚ`) in place of Python floats;
all concrete inputs used below keep every intermediate far from a
floor/ceil/round boundary, so the rational and floating-point values of
every integer output agree.

Layering:

* `stringSizeCore`, `sysConfigBody`, `genTableBody` embed the bodies of
  `StringSizer.calculate_string_size`, `calculate_system_configuration`
  and `generate_configuration_table` line by line.  The names
  `consider_degradation` and `project_lifetime_years`, which the body of
  `calculate_string_size` reads (lines 109/110/144/191/...) but which are
  bound nowhere in the file — they are neither parameters nor module
  globals — appear as explicit leading parameters `cd : Bool`, `L : ℕ`.
* `calculate_string_size`, `calculate_system_configuration` and
  `generate_configuration_table` are the operations as shipped: they
  extract the input-dict fields in source order (a missing key is a
  `KeyError` naming it, exactly as in Python) and then resolve the two
  unbound names against the module's global environment, which contains
  no such bindings — so, like the Python code, every call fails with
  `NameError "consider_degradation"` once extraction succeeds.
* Python exception outcomes are modelled by `Except PyError`; a division
  whose divisor Python would reject is modelled by an explicit
  `zeroDivisionError` branch in the system-configuration body, and
  `float('inf')` flowing into `int(...)` (line 358-359 when `max_power`
  is absent) by `overflowError`.
-/

deriving instance DecidableEq for Except

namespace StringSizing

/-- Python exception outcomes relevant to the string-sizing module. -/
inductive PyError where
  | keyError (key : String)
  | nameError (name : String)
  | zeroDivisionError
  | overflowError
deriving DecidableEq

/-- A Python dict with string keys and numeric values, as passed to the
`StringSizer` operations. -/
abbrev PyDict := List (String × ℚ)

/-- `d[k]` on a Python dict: the value, or `KeyError` naming the key. -/
def dictGet (d : PyDict) (k : String) : Except PyError ℚ :=
  match d.find? (fun p => p.1 == k) with
  | some p => Except.ok p.2
  | none => Except.error (PyError.keyError k)

/-- `d.get(k, default)` on a Python dict (never raises). -/
def dictGetD (d : PyDict) (k : String) (dflt : ℚ) : ℚ :=
  match d.find? (fun p => p.1 == k) with
  | some p => p.2
  | none => dflt

/-- `d.get(k)` / `k in d` combination: the optional value of a key. -/
def dictGetOpt (d : PyDict) (k : String) : Option ℚ :=
  (d.find? (fun p => p.1 == k)).map (fun p => p.2)

/-- `int(np.round(q))`: NumPy rounds halves to the nearest even integer
(IEEE 754 round-half-to-even), unlike naive round-half-up. -/
def roundHalfEven (q : ℚ) : ℤ :=
  if q - (Int.floor q : ℚ) < 1/2 then Int.floor q
  else if 1/2 < q - (Int.floor q : ℚ) then Int.floor q + 1
  else if Int.floor q % 2 = 0 then Int.floor q else Int.floor q + 1

/-- Python `range(a, b + 1)` over integers, as a list. -/
def intRangeIncl (a b : ℤ) : List ℤ :=
  (List.range (b + 1 - a).toNat).map (fun i => a + (i : ℤ))

/-- Module electrical parameters (lines 77-86).  `temp_coeff_v_oc` and
`temp_coeff_v_mp` are stored in %/°C as in the input dict (the body
divides by 100); `degradation_rate` in %/year (default 0.5 applied at
extraction, line 86). -/
structure ModuleParams where
  v_oc : ℚ
  v_mp : ℚ
  i_sc : ℚ
  i_mp : ℚ
  temp_coeff_v_oc : ℚ
  temp_coeff_v_mp : ℚ
  degradation_rate : ℚ
deriving DecidableEq

/-- Inverter parameters (lines 91-93 required; `idc_max`, `max_power`,
`ac_power` optional — lines 162, 171, 358, 380). -/
structure InverterParams where
  mppt_min_voltage : ℚ
  mppt_max_voltage : ℚ
  vdc_max : ℚ
  idc_max : Option ℚ
  max_power : Option ℚ
  ac_power : Option ℚ
deriving DecidableEq

/-- Site environmental parameters (lines 88-89; `elevation` defaults to 0
at extraction, line 123). -/
structure SiteParams where
  min_temp : ℚ
  max_temp : ℚ
  elevation : ℚ
deriving DecidableEq

/-- Parameter extraction from the module dict, in source read order
(lines 77-80, then the defaulted reads of lines 82-86). -/
def parseModuleParams (d : PyDict) : Except PyError ModuleParams := do
  let v_oc ← dictGet d "v_oc"
  let v_mp ← dictGet d "v_mp"
  let i_sc ← dictGet d "i_sc"
  let i_mp ← dictGet d "i_mp"
  pure { v_oc := v_oc, v_mp := v_mp, i_sc := i_sc, i_mp := i_mp,
         temp_coeff_v_oc := dictGetD d "temp_coeff_v_oc" (-29/100),
         temp_coeff_v_mp := dictGetD d "temp_coeff_v_mp" (-35/100),
         degradation_rate := dictGetD d "degradation_rate" (1/2) }

/-- Parameter extraction from the site dict (lines 88-89, 123). -/
def parseSiteParams (d : PyDict) : Except PyError SiteParams := do
  let min_temp ← dictGet d "min_temp"
  let max_temp ← dictGet d "max_temp"
  pure { min_temp := min_temp, max_temp := max_temp,
         elevation := dictGetD d "elevation" 0 }

/-- Parameter extraction from the inverter dict (lines 91-93 required,
the rest optional). -/
def parseInverterParams (d : PyDict) : Except PyError InverterParams := do
  let mppt_min ← dictGet d "mppt_min_voltage"
  let mppt_max ← dictGet d "mppt_max_voltage"
  let vdc ← dictGet d "vdc_max"
  pure { mppt_min_voltage := mppt_min, mppt_max_voltage := mppt_max,
         vdc_max := vdc,
         idc_max := dictGetOpt d "idc_max",
         max_power := dictGetOpt d "max_power",
         ac_power := dictGetOpt d "ac_power" }

/-- Line 82: `temp_coeff_v_oc / 100` (%/°C to fraction). -/
def tempCoeffVocFrac (mp : ModuleParams) : ℚ := mp.temp_coeff_v_oc / 100

/-- Line 83: `temp_coeff_v_mp / 100`. -/
def tempCoeffVmpFrac (mp : ModuleParams) : ℚ := mp.temp_coeff_v_mp / 100

/-- Line 86: `degradation_rate / 100` (%/year to fraction). -/
def degradationRateFrac (mp : ModuleParams) : ℚ := mp.degradation_rate / 100

/-- Line 98: `delta_t_cold = min_temp - 25`. -/
def deltaTCold (site : SiteParams) : ℚ := site.min_temp - 25

/-- Line 103: `delta_t_hot = max_temp - 25`. -/
def deltaTHot (site : SiteParams) : ℚ := site.max_temp - 25

/-- Line 99: Voc at the cold extreme. -/
def vOcCold (mp : ModuleParams) (site : SiteParams) : ℚ :=
  mp.v_oc * (1 + tempCoeffVocFrac mp * deltaTCold site)

/-- Line 104: Vmp at the hot extreme, beginning of life. -/
def vMpHotBol (mp : ModuleParams) (site : SiteParams) : ℚ :=
  mp.v_mp * (1 + tempCoeffVmpFrac mp * deltaTHot site)

/-- Lines 109-119: EOL retained-voltage factor `(1 - rate)^lifetime`
when the degradation branch is taken, else 1. -/
def degradationFactor (cd : Bool) (L : ℕ) (mp : ModuleParams) : ℚ :=
  if cd then (1 - degradationRateFrac mp) ^ L else 1

/-- Lines 111/117: Vmp at the hot extreme at end of life. -/
def vMpHotEol (cd : Bool) (L : ℕ) (mp : ModuleParams) (site : SiteParams) : ℚ :=
  if cd then vMpHotBol mp site * degradationFactor cd L mp else vMpHotBol mp site

/-- Lines 112/118: STC Vmp at end of life. -/
def vMpStcEol (cd : Bool) (L : ℕ) (mp : ModuleParams) : ℚ :=
  if cd then mp.v_mp * degradationFactor cd L mp else mp.v_mp

/-- Line 124: `1 + (elevation / 300) * 0.01`. -/
def elevationFactor (site : SiteParams) : ℚ :=
  1 + (site.elevation / 300) * (1/100)

/-- Line 126: cold Voc with elevation correction and safety factor. -/
def vOcColdCorrected (mp : ModuleParams) (site : SiteParams) (sf : ℚ) : ℚ :=
  vOcCold mp site * elevationFactor site * sf

/-- Line 129: `int(np.floor(vdc_max / v_oc_cold_corrected))`. -/
def maxModulesVoc (mp : ModuleParams) (inv : InverterParams) (site : SiteParams) (sf : ℚ) : ℤ :=
  Int.floor (inv.vdc_max / vOcColdCorrected mp site sf)

/-- Line 133: Vmp evaluated at the cold extreme. -/
def vMpCold (mp : ModuleParams) (site : SiteParams) : ℚ :=
  mp.v_mp * (1 + tempCoeffVmpFrac mp * deltaTCold site)

/-- Line 134: `int(np.floor(mppt_max / v_mp_cold))`. -/
def maxModulesMppt (mp : ModuleParams) (inv : InverterParams) (site : SiteParams) : ℤ :=
  Int.floor (inv.mppt_max_voltage / vMpCold mp site)

/-- Line 137: `min(max_modules_voc, max_modules_mppt)`. -/
def maxModules (mp : ModuleParams) (inv : InverterParams) (site : SiteParams) (sf : ℚ) : ℤ :=
  min (maxModulesVoc mp inv site sf) (maxModulesMppt mp inv site)

/-- Line 141: `int(np.ceil(mppt_min / v_mp_hot_bol))`. -/
def minModulesBol (mp : ModuleParams) (inv : InverterParams) (site : SiteParams) : ℤ :=
  Int.ceil (inv.mppt_min_voltage / vMpHotBol mp site)

/-- Lines 144-156: the EOL minimum (equal to the BOL minimum when the
degradation branch is off). -/
def minModulesEol (cd : Bool) (L : ℕ) (mp : ModuleParams) (inv : InverterParams) (site : SiteParams) : ℤ :=
  if cd then Int.ceil (inv.mppt_min_voltage / vMpHotEol cd L mp site)
  else minModulesBol mp inv site

/-- Lines 144-156: `max(min_modules_bol, min_modules_eol)` under
degradation, else the BOL value. -/
def minModulesPre (cd : Bool) (L : ℕ) (mp : ModuleParams) (inv : InverterParams) (site : SiteParams) : ℤ :=
  if cd then max (minModulesBol mp inv site) (minModulesEol cd L mp inv site)
  else minModulesBol mp inv site

/-- Line 159: `min_modules = max(1, min_modules)`. -/
def minModules (cd : Bool) (L : ℕ) (mp : ModuleParams) (inv : InverterParams) (site : SiteParams) : ℤ :=
  max 1 (minModulesPre cd L mp inv site)

/-- Lines 162-168: `int(np.floor(idc_max / i_mp_stc))` when `idc_max`
is supplied, else `None`. -/
def maxStringsCurrent (mp : ModuleParams) (inv : InverterParams) : Option ℤ :=
  inv.idc_max.map (fun idc => Int.floor (idc / mp.i_mp))

/-- Lines 171-176: `int(np.floor(max_power / (v_mp_stc * i_mp_stc)))`
when `max_power` is supplied, else `None`. -/
def maxModulesPower (mp : ModuleParams) (inv : InverterParams) : Option ℤ :=
  inv.max_power.map (fun mxp => Int.floor (mxp / (mp.v_mp * mp.i_mp)))

/-- Line 215: `int(np.round((min_modules + max_modules) / 2))`. -/
def recommendedModules (cd : Bool) (L : ℕ) (mp : ModuleParams) (inv : InverterParams) (site : SiteParams) (sf : ℚ) : ℤ :=
  roundHalfEven (((minModules cd L mp inv site : ℚ) + (maxModules mp inv site sf : ℚ)) / 2)

/-- Lines 179-187: the `voltages` dict stored in the result, with its
exact source keys (`..._bol` / `..._eol`). -/
def voltagesDict (cd : Bool) (L : ℕ) (mp : ModuleParams) (site : SiteParams) (sf : ℚ) : PyDict :=
  [("v_oc_cold_bol", vOcColdCorrected mp site sf),
   ("v_oc_stc_bol", mp.v_oc),
   ("v_mp_cold_bol", vMpCold mp site),
   ("v_mp_stc_bol", mp.v_mp),
   ("v_mp_hot_bol", vMpHotBol mp site),
   ("v_mp_hot_eol", vMpHotEol cd L mp site),
   ("v_mp_stc_eol", vMpStcEol cd L mp)]

/-- One row of the lifecycle table (lines 203-210). -/
structure LifecycleRow where
  year : ℕ
  degradation_factor : ℚ
  remaining_power_pct : ℚ
  v_mp_hot : ℚ
  v_mp_stc : ℚ
  above_mppt_min : Bool
deriving DecidableEq

/-- Lines 192-212: the lifecycle breakdown built when the degradation
branch is taken. -/
def lifecycleRows (L : ℕ) (mp : ModuleParams) (inv : InverterParams) (site : SiteParams) (min_modules : ℤ) : List LifecycleRow :=
  (([0, 5, 10, 15, 20, 25, 30] : List ℕ).filter (fun y => decide (y ≤ L))).map
    (fun year =>
      let yd := (1 - degradationRateFrac mp) ^ year
      { year := year
        degradation_factor := yd
        remaining_power_pct := yd * 100
        v_mp_hot := vMpHotBol mp site * yd
        v_mp_stc := mp.v_mp * yd
        above_mppt_min :=
          if min_modules > 0 then
            decide (vMpHotBol mp site * yd > inv.mppt_min_voltage / (min_modules : ℚ))
          else false })

/-- Warning messages (lines 246-297) as structured values.  Each
constructor stands for one message template and carries the numbers the
template interpolates; the substring test `"No valid string" in w`
performed at line 328 distinguishes exactly the `noValidString` template
from all the others, so it is modelled by matching on the constructor. -/
inductive Warning where
  | noValidString (min_modules max_modules : ℤ)
  | maxStringVerySmall
  | bolUndervoltage (string_voltage mppt_min : ℚ)
  | degradationImpact (extra_modules : ℤ)
  | eolCriticalRecommended (recommended : ℤ) (eol_voltage mppt_min : ℚ)
  | eolLowMarginRecommended (eol_voltage mppt_min : ℚ)
  | eolLowMarginMin (margin_pct : ℚ)
deriving DecidableEq

/-- Line 328's substring test `"No valid string" in warnings[0]`: that
substring occurs in the `noValidString` template (line 248) and in no
other warning template of the module. -/
def mentionsNoValidString : Warning → Bool
  | Warning.noValidString _ _ => true
  | _ => false

/-- Lines 253-297: every warning after the critical incompatibility one,
in emission order (`max < 2`, BOL undervoltage, then the degradation
block with its `if`/`elif` chain). -/
def warningsRest (cd : Bool) (L : ℕ) (mp : ModuleParams) (inv : InverterParams) (site : SiteParams) (sf : ℚ) : List Warning :=
  (if maxModules mp inv site sf < 2 then [Warning.maxStringVerySmall] else [])
  ++ (if (minModules cd L mp inv site : ℚ) * vMpHotBol mp site < inv.mppt_min_voltage then
        [Warning.bolUndervoltage ((minModules cd L mp inv site : ℚ) * vMpHotBol mp site) inv.mppt_min_voltage]
      else [])
  ++ (if cd then
        (if minModulesEol cd L mp inv site > minModulesBol mp inv site then
           [Warning.degradationImpact (minModulesEol cd L mp inv site - minModulesBol mp inv site)]
         else [])
        ++ (if (recommendedModules cd L mp inv site sf : ℚ) * vMpHotEol cd L mp site < inv.mppt_min_voltage then
              [Warning.eolCriticalRecommended (recommendedModules cd L mp inv site sf)
                ((recommendedModules cd L mp inv site sf : ℚ) * vMpHotEol cd L mp site) inv.mppt_min_voltage]
            else if (recommendedModules cd L mp inv site sf : ℚ) * vMpHotEol cd L mp site < inv.mppt_min_voltage * (105/100) then
              [Warning.eolLowMarginRecommended
                ((recommendedModules cd L mp inv site sf : ℚ) * vMpHotEol cd L mp site) inv.mppt_min_voltage]
            else [])
        ++ (if (((minModules cd L mp inv site : ℚ) * vMpHotEol cd L mp site - inv.mppt_min_voltage) / inv.mppt_min_voltage) * 100 < 10 then
              [Warning.eolLowMarginMin ((((minModules cd L mp inv site : ℚ) * vMpHotEol cd L mp site - inv.mppt_min_voltage) / inv.mppt_min_voltage) * 100)]
            else [])
      else [])

/-- Lines 245-297: the full ordered warnings list; the critical
`noValidString` warning, when applicable, is appended first. -/
def warningsList (cd : Bool) (L : ℕ) (mp : ModuleParams) (inv : InverterParams) (site : SiteParams) (sf : ℚ) : List Warning :=
  (if minModules cd L mp inv site > maxModules mp inv site sf then
     [Warning.noValidString (minModules cd L mp inv site) (maxModules mp inv site sf)]
   else [])
  ++ warningsRest cd L mp inv site sf

/-- The `string_voltage_range` sub-dict of the result (lines 226-232). -/
structure StringVoltageRangeR where
  min_bol : ℚ
  min_eol : Option ℚ
  max : ℚ
  recommended_bol : ℚ
  recommended_eol : Option ℚ
deriving DecidableEq

/-- The `degradation_analysis` sub-dict of the result (lines 235-241). -/
structure DegradationAnalysisR where
  enabled : Bool
  degradation_rate_pct_per_year : Option ℚ
  project_lifetime_years : Option ℕ
  eol_power_retention_pct : Option ℚ
  lifecycle_analysis : Option (List LifecycleRow)
deriving DecidableEq

/-- The result dict of `calculate_string_size` (lines 217-243). -/
structure StringSizingResult where
  min_modules_per_string : ℤ
  max_modules_per_string : ℤ
  recommended_modules_per_string : ℤ
  min_modules_bol : ℤ
  min_modules_eol : Option ℤ
  limiting_factor_max : String
  limiting_factor_min : String
  voltages : PyDict
  string_voltage_range : StringVoltageRangeR
  max_strings_per_inverter_current : Option ℤ
  max_modules_power_limit : Option ℤ
  degradation_analysis : DegradationAnalysisR
  warnings : List Warning
deriving DecidableEq

/-- The body of `calculate_string_size` (lines 77-300), with the two
names the body reads but never binds — `consider_degradation` and
`project_lifetime_years` — made explicit parameters `cd`, `L`.  This is
NOT the semantics of the shipped operation: every real call raises
`NameError` at line 109 before producing a result (see
`calculate_string_size` below, and the C1/C2 theorems).  It models the
computation those lines specify under a hypothetical binding of the two
names, and is used only as supporting analysis. -/
def stringSizeCore (cd : Bool) (L : ℕ) (mp : ModuleParams) (inv : InverterParams) (site : SiteParams) (sf : ℚ) : StringSizingResult :=
  { min_modules_per_string := minModules cd L mp inv site
    max_modules_per_string := maxModules mp inv site sf
    recommended_modules_per_string := recommendedModules cd L mp inv site sf
    min_modules_bol := minModulesBol mp inv site
    min_modules_eol := if cd then some (minModulesEol cd L mp inv site) else none
    limiting_factor_max :=
      if maxModulesVoc mp inv site sf < maxModulesMppt mp inv site then "Voc_max" else "MPPT_max"
    limiting_factor_min :=
      if cd ∧ minModulesEol cd L mp inv site > minModulesBol mp inv site then "EOL_MPPT_min"
      else "BOL_MPPT_min"
    voltages := voltagesDict cd L mp site sf
    string_voltage_range :=
      { min_bol := (minModules cd L mp inv site : ℚ) * vMpHotBol mp site
        min_eol := if cd then some ((minModules cd L mp inv site : ℚ) * vMpHotEol cd L mp site) else none
        max := (maxModules mp inv site sf : ℚ) * vMpCold mp site
        recommended_bol := (recommendedModules cd L mp inv site sf : ℚ) * mp.v_mp
        recommended_eol := if cd then some ((recommendedModules cd L mp inv site sf : ℚ) * vMpStcEol cd L mp) else none }
    max_strings_per_inverter_current := maxStringsCurrent mp inv
    max_modules_power_limit := maxModulesPower mp inv
    degradation_analysis :=
      { enabled := cd
        degradation_rate_pct_per_year := if cd then some (degradationRateFrac mp * 100) else none
        project_lifetime_years := if cd then some L else none
        eol_power_retention_pct := if cd then some (degradationFactor cd L mp * 100) else none
        lifecycle_analysis := if cd then some (lifecycleRows L mp inv site (minModules cd L mp inv site)) else none }
    warnings := warningsList cd L mp inv site sf }

/-- The module-level bindings of `string_sizing.py` that could satisfy a
Boolean name lookup from inside `calculate_string_size`: there are none
(the module binds only imports, `logger`, the class, the utility
functions and the two catalog dicts). -/
def stringSizingBoolGlobals : List (String × Bool) := []

/-- Module-level natural-number bindings visible to the body: none. -/
def stringSizingNatGlobals : List (String × ℕ) := []

/-- Python name resolution for a Boolean-valued free name of the body:
a name absent from the (empty) global environment raises `NameError`. -/
def resolveGlobalBool (n : String) : Except PyError Bool :=
  match stringSizingBoolGlobals.find? (fun p => p.1 == n) with
  | some p => Except.ok p.2
  | none => Except.error (PyError.nameError n)

/-- Python name resolution for a numeric free name of the body. -/
def resolveGlobalNat (n : String) : Except PyError ℕ :=
  match stringSizingNatGlobals.find? (fun p => p.1 == n) with
  | some p => Except.ok p.2
  | none => Except.error (PyError.nameError n)

/-- `StringSizer.calculate_string_size` as shipped: extract the dict
fields in source order (lines 77-93), then resolve the unbound name
`consider_degradation` (first read at line 109) — which fails with
`NameError` because no such global exists — and only then, had the
lookup succeeded, run the arithmetic body. -/
def calculate_string_size (module_params inverter_params site_params : PyDict) (safety_factor : ℚ) : Except PyError StringSizingResult := do
  let mp ← parseModuleParams module_params
  let site ← parseSiteParams site_params
  let inv ← parseInverterParams inverter_params
  let consider_degradation ← resolveGlobalBool "consider_degradation"
  let project_lifetime_years ←
    if consider_degradation then resolveGlobalNat "project_lifetime_years" else pure 0
  pure (stringSizeCore consider_degradation project_lifetime_years mp inv site safety_factor)

/-- Line 335-340: the chosen modules-per-string — the recommended value
when no override is given, otherwise the override clamped into
`[min_modules_per_string, max_modules_per_string]`. -/
def modulesPerStringChosen (sr : StringSizingResult) (mps0 : Option ℤ) : ℤ :=
  match mps0 with
  | none => sr.recommended_modules_per_string
  | some m =>
    if m < sr.min_modules_per_string then sr.min_modules_per_string
    else if m > sr.max_modules_per_string then sr.max_modules_per_string
    else m

/-- Line 343: `module_power_w = v_mp * i_mp`. -/
def modulePowerW (mp : ModuleParams) : ℚ := mp.v_mp * mp.i_mp

/-- Line 346: `int(np.round(system_size_kw * 1000 / module_power_w))`. -/
def totalModulesTarget (kw : ℚ) (mp : ModuleParams) : ℤ :=
  roundHalfEven (kw * 1000 / modulePowerW mp)

/-- Line 349: `int(np.ceil(total_modules / modules_per_string))`. -/
def totalStringsOf (kw : ℚ) (mp : ModuleParams) (sr : StringSizingResult) (mps0 : Option ℤ) : ℤ :=
  Int.ceil ((totalModulesTarget kw mp : ℚ) / (modulesPerStringChosen sr mps0 : ℚ))

/-- Line 352: `actual_modules = total_strings * modules_per_string`. -/
def actualModulesOf (kw : ℚ) (mp : ModuleParams) (sr : StringSizingResult) (mps0 : Option ℤ) : ℤ :=
  totalStringsOf kw mp sr mps0 * modulesPerStringChosen sr mps0

/-- Line 355: `power_per_string = modules_per_string * module_power_w`. -/
def powerPerStringOf (mp : ModuleParams) (sr : StringSizingResult) (mps0 : Option ℤ) : ℚ :=
  (modulesPerStringChosen sr mps0 : ℚ) * modulePowerW mp

/-- Lines 359-367: strings per inverter capped by DC power (`P` being
the present `max_power`), then by the current cap when that cap is
truthy (Python: `if string_results['max_strings_per_inverter_current']:`
is false for both `None` and `0`). -/
def maxStringsPerInverterOf (mp : ModuleParams) (sr : StringSizingResult) (mps0 : Option ℤ) (P : ℚ) : ℤ :=
  let base := Int.floor (P / powerPerStringOf mp sr mps0)
  match sr.max_strings_per_inverter_current with
  | some c => if c ≠ 0 then min base c else base
  | none => base

/-- Line 370: `int(np.ceil(total_strings / max_strings_per_inverter))`. -/
def numInvertersOf (kw : ℚ) (mp : ModuleParams) (sr : StringSizingResult) (mps0 : Option ℤ) (P : ℚ) : ℤ :=
  Int.ceil ((totalStringsOf kw mp sr mps0 : ℚ) / (maxStringsPerInverterOf mp sr mps0 P : ℚ))

/-- Line 373: `total_strings // num_inverters` (Python floored
division). -/
def stringsPerInverterOf (kw : ℚ) (mp : ModuleParams) (sr : StringSizingResult) (mps0 : Option ℤ) (P : ℚ) : ℤ :=
  Int.fdiv (totalStringsOf kw mp sr mps0) (numInvertersOf kw mp sr mps0 P)

/-- Line 374: `total_strings % num_inverters`. -/
def extraStringsOf (kw : ℚ) (mp : ModuleParams) (sr : StringSizingResult) (mps0 : Option ℤ) (P : ℚ) : ℤ :=
  Int.fmod (totalStringsOf kw mp sr mps0) (numInvertersOf kw mp sr mps0 P)

/-- Line 377: `actual_system_size_kw = actual_modules * module_power_w / 1000`. -/
def actualSizeKwOf (kw : ℚ) (mp : ModuleParams) (sr : StringSizingResult) (mps0 : Option ℤ) : ℚ :=
  (actualModulesOf kw mp sr mps0 : ℚ) * modulePowerW mp / 1000

/-- Line 380: `num_inverters * inverter_params.get('ac_power',
inverter_max_power / 1000)` — when `ac_power` is absent the code falls
back to the DC `max_power` divided by 1000, it does not use `None`. -/
def totalInverterPowerOf (kw : ℚ) (mp : ModuleParams) (inv : InverterParams) (sr : StringSizingResult) (mps0 : Option ℤ) (P : ℚ) : ℚ :=
  (numInvertersOf kw mp sr mps0 P : ℚ) * (inv.ac_power.getD (P / 1000))

/-- Line 381: `actual / total if total > 0 else None`. -/
def dcAcRatioOf (kw : ℚ) (mp : ModuleParams) (inv : InverterParams) (sr : StringSizingResult) (mps0 : Option ℤ) (P : ℚ) : Option ℚ :=
  if 0 < totalInverterPowerOf kw mp inv sr mps0 P then
    some (actualSizeKwOf kw mp sr mps0 / totalInverterPowerOf kw mp inv sr mps0 P)
  else none

/-- The result dict of `calculate_system_configuration` on its success
path (lines 383-403), flattening the `system_configuration` and
`power_summary` sub-dicts into one record. -/
structure SystemConfiguration where
  target_size_kw : ℚ
  actual_size_kw : ℚ
  total_modules : ℤ
  modules_per_string : ℤ
  total_strings : ℤ
  num_inverters : ℤ
  strings_per_inverter : ℤ
  extra_strings : ℤ
  dc_ac_ratio : Option ℚ
  module_power_w : ℚ
  string_power_w : ℚ
  total_ac_power_kw : ℚ
  string_details : StringSizingResult
  configuration_valid : Bool
deriving DecidableEq

/-- The two possible returns of `calculate_system_configuration`: the
incompatibility dict of lines 329-332 (an error message plus the string
sizing detail, no partial configuration), or a full configuration. -/
inductive SystemOutcome where
  | incompatible (error : String) (string_results : StringSizingResult)
  | ok (cfg : SystemConfiguration)
deriving DecidableEq

/-- The successful configuration record assembled from the quantities of
lines 335-403. -/
def systemConfigurationOf (kw : ℚ) (mp : ModuleParams) (inv : InverterParams) (mps0 : Option ℤ) (sr : StringSizingResult) (P : ℚ) : SystemConfiguration :=
  { target_size_kw := kw
    actual_size_kw := actualSizeKwOf kw mp sr mps0
    total_modules := actualModulesOf kw mp sr mps0
    modules_per_string := modulesPerStringChosen sr mps0
    total_strings := totalStringsOf kw mp sr mps0
    num_inverters := numInvertersOf kw mp sr mps0 P
    strings_per_inverter := stringsPerInverterOf kw mp sr mps0 P
    extra_strings := extraStringsOf kw mp sr mps0 P
    dc_ac_ratio := dcAcRatioOf kw mp inv sr mps0 P
    module_power_w := modulePowerW mp
    string_power_w := powerPerStringOf mp sr mps0
    total_ac_power_kw := totalInverterPowerOf kw mp inv sr mps0 P
    string_details := sr
    configuration_valid := true }

/-- Line 328: the incompatibility test — nonempty warnings list and
`"No valid string"` occurring in the first warning. -/
def incompatCheck (sr : StringSizingResult) : Bool :=
  match sr.warnings with
  | [] => false
  | w :: _ => mentionsNoValidString w

/-- Lines 334-403 of `calculate_system_configuration`, after the
incompatibility early return.  Each division whose divisor Python would
reject raises `ZeroDivisionError`; a missing `max_power` makes line 359
compute `int(np.floor(inf / power_per_string))`, which raises
`OverflowError` in Python (`int(float('inf'))`). -/
def sysConfigRest (kw : ℚ) (mp : ModuleParams) (inv : InverterParams) (mps0 : Option ℤ) (sr : StringSizingResult) : Except PyError SystemOutcome :=
  if modulePowerW mp = 0 then Except.error PyError.zeroDivisionError
  else if modulesPerStringChosen sr mps0 = 0 then Except.error PyError.zeroDivisionError
  else if powerPerStringOf mp sr mps0 = 0 then Except.error PyError.zeroDivisionError
  else
    match inv.max_power with
    | none => Except.error PyError.overflowError
    | some P =>
      if maxStringsPerInverterOf mp sr mps0 P = 0 then Except.error PyError.zeroDivisionError
      else if numInvertersOf kw mp sr mps0 P = 0 then Except.error PyError.zeroDivisionError
      else Except.ok (SystemOutcome.ok (systemConfigurationOf kw mp inv mps0 sr P))

/-- The body of `calculate_system_configuration` given the string-sizing
result (lines 328-403). -/
def sysConfigBody (kw : ℚ) (mp : ModuleParams) (inv : InverterParams) (mps0 : Option ℤ) (sr : StringSizingResult) : Except PyError SystemOutcome :=
  if incompatCheck sr then
    Except.ok (SystemOutcome.incompatible "Module and inverter are incompatible" sr)
  else sysConfigRest kw mp inv mps0 sr

/-- `StringSizer.calculate_system_configuration` as shipped: it first
calls `calculate_string_size` (line 324, default safety factor 1), so it
propagates that call's `NameError`. -/
def calculate_system_configuration (system_size_kw : ℚ) (module_params inverter_params site_params : PyDict) (modules_per_string : Option ℤ) : Except PyError SystemOutcome := do
  let sr ← calculate_string_size module_params inverter_params site_params 1
  let mp ← parseModuleParams module_params
  let inv ← parseInverterParams inverter_params
  sysConfigBody system_size_kw mp inv modules_per_string sr

/-- The system-configuration body applied to the string-sizing body's
output: the computation lines 324-403 specify, for given values of the
two unbound names.  The shipped `calculate_system_configuration` never
reaches this computation — its line-324 `calculate_string_size` call
raises `NameError` first — so this is supporting analysis only. -/
def sysConfigCore (cd : Bool) (L : ℕ) (kw : ℚ) (mp : ModuleParams) (inv : InverterParams) (site : SiteParams) (mps0 : Option ℤ) : Except PyError SystemOutcome :=
  sysConfigBody kw mp inv mps0 (stringSizeCore cd L mp inv site 1)

/-- One row of the configuration table (lines 440-449), with the
formatted voltage strings kept as their numeric values and the
`'Yes'`/`'No'` flag as a Boolean. -/
structure ConfigRow where
  modules_per_string : ℤ
  string_voc_cold : ℚ
  string_vmp_cold : ℚ
  string_vmp_stc : ℚ
  string_vmp_hot : ℚ
  string_power_stc_kw : ℚ
  within_mppt_range : Bool
deriving DecidableEq

/-- Lines 434-450, one loop iteration: the four lookups of lines 435-438
read keys `v_mp_hot`/`v_mp_stc`/`v_mp_cold`/`v_oc_cold`, which the
voltages dict (lines 179-187) does not contain, and lines 447-448 read
`inverter_params['mppt_min']`/`['mppt_max']`, which the inverter dict
does not contain either; each absent key is a `KeyError`. -/
def configRowOf (mp : ModuleParams) (inverter_params : PyDict) (sr : StringSizingResult) (modules : ℤ) : Except PyError ConfigRow := do
  let v_mp_hot ← dictGet sr.voltages "v_mp_hot"
  let v_mp_stc ← dictGet sr.voltages "v_mp_stc"
  let v_mp_cold ← dictGet sr.voltages "v_mp_cold"
  let v_oc_cold ← dictGet sr.voltages "v_oc_cold"
  let mppt_min ← dictGet inverter_params "mppt_min"
  let mppt_max ← dictGet inverter_params "mppt_max"
  pure { modules_per_string := modules
         string_voc_cold := (modules : ℚ) * v_oc_cold
         string_vmp_cold := (modules : ℚ) * v_mp_cold
         string_vmp_stc := (modules : ℚ) * v_mp_stc
         string_vmp_hot := (modules : ℚ) * v_mp_hot
         string_power_stc_kw := (modules : ℚ) * mp.v_mp * mp.i_mp / 1000
         within_mppt_range :=
           decide ((modules : ℚ) * v_mp_hot ≥ mppt_min) && decide ((modules : ℚ) * v_mp_cold ≤ mppt_max) }

/-- Lines 426-452 of `generate_configuration_table`: the empty table
when `min > max`, else one row per module count from min to max. -/
def genTableBody (mp : ModuleParams) (inverter_params : PyDict) (sr : StringSizingResult) : Except PyError (List ConfigRow) :=
  if sr.min_modules_per_string > sr.max_modules_per_string then Except.ok []
  else (intRangeIncl sr.min_modules_per_string sr.max_modules_per_string).mapM
    (configRowOf mp inverter_params sr)

/-- `StringSizer.generate_configuration_table` as shipped: it first
calls `calculate_string_size` (line 422, default safety factor 1), so it
propagates that call's `NameError`. -/
def generate_configuration_table (module_params inverter_params site_params : PyDict) : Except PyError (List ConfigRow) := do
  let sr ← calculate_string_size module_params inverter_params site_params 1
  let mp ← parseModuleParams module_params
  genTableBody mp inverter_params sr

/-- The inverter parameters rendered back as the dict the table body
indexes into (exactly the keys a caller supplies). -/
def inverterDict (inv : InverterParams) : PyDict :=
  [("mppt_min_voltage", inv.mppt_min_voltage),
   ("mppt_max_voltage", inv.mppt_max_voltage),
   ("vdc_max", inv.vdc_max)]
  ++ (match inv.idc_max with | some x => [("idc_max", x)] | none => [])
  ++ (match inv.max_power with | some x => [("max_power", x)] | none => [])
  ++ (match inv.ac_power with | some x => [("ac_power", x)] | none => [])

/-- The table body applied to the string-sizing body's output: the
computation lines 422-452 specify, for given values of the two unbound
names.  The shipped `generate_configuration_table` never reaches this
computation — its line-422 `calculate_string_size` call raises
`NameError` first — so this is supporting analysis only. -/
def genTableCore (cd : Bool) (L : ℕ) (mp : ModuleParams) (inv : InverterParams) (site : SiteParams) : Except PyError (List ConfigRow) :=
  genTableBody mp (inverterDict inv) (stringSizeCore cd L mp inv site 1)

/-- Projects the `dc_ac_ratio` out of a system-configuration outcome
when one was produced. -/
def outcomeDcAcRatio : Except PyError SystemOutcome → Option (Option ℚ)
  | Except.ok (SystemOutcome.ok cfg) => some cfg.dc_ac_ratio
  | _ => none

/-- True exactly on the incompatibility return of
`calculate_system_configuration`. -/
def isIncompatibleOutcome : Except PyError SystemOutcome → Bool
  | Except.ok (SystemOutcome.incompatible _ _) => true
  | _ => false

/-- The literal scenario's module dict (`Generic 400W Mono`). -/
def moduleLitDict : PyDict :=
  [("v_oc", 49.5), ("v_mp", 41.7), ("i_sc", 10.8), ("i_mp", 9.6),
   ("temp_coeff_v_oc", -0.28), ("temp_coeff_v_mp", -0.37)]

/-- The literal scenario's inverter dict (no `ac_power`, exactly the
fields the scenario lists). -/
def inverterLitDict : PyDict :=
  [("mppt_min_voltage", 450), ("mppt_max_voltage", 800), ("vdc_max", 1000),
   ("idc_max", 280), ("max_power", 137000)]

/-- The literal scenario's site dict. -/
def siteLitDict : PyDict :=
  [("min_temp", -10), ("max_temp", 40), ("elevation", 0)]

/-- The literal scenario's module, in extracted form (degradation rate
defaulted to 0.5 %/year as at line 86). -/
def moduleLit : ModuleParams :=
  { v_oc := 49.5, v_mp := 41.7, i_sc := 10.8, i_mp := 9.6,
    temp_coeff_v_oc := -0.28, temp_coeff_v_mp := -0.37, degradation_rate := 0.5 }

/-- The literal scenario's inverter, in extracted form. -/
def inverterLit : InverterParams :=
  { mppt_min_voltage := 450, mppt_max_voltage := 800, vdc_max := 1000,
    idc_max := some 280, max_power := some 137000, ac_power := none }

/-- The literal scenario's site, in extracted form. -/
def siteLit : SiteParams := { min_temp := -10, max_temp := 40, elevation := 0 }

/-- The literal inverter with a rated AC power supplied (the
`Generic String 100kW` catalog value). -/
def inverterLitAc : InverterParams :=
  { inverterLit with ac_power := some 100000 }

/-- An inverter whose MPPT window sits too high for the literal module:
the minimum string length exceeds the maximum. -/
def inverterIncompat : InverterParams :=
  { mppt_min_voltage := 800, mppt_max_voltage := 850, vdc_max := 1000,
    idc_max := some 280, max_power := some 137000, ac_power := none }

/-- The literal inverter with its MPPT maximum moved to 810 V, which
makes the bounds 12 and 17 — an odd sum. -/
def inverterOddSum : InverterParams :=
  { inverterLit with mppt_max_voltage := 810 }

/-- The incompatible inverter as a caller-supplied dict. -/
def inverterIncompatDict : PyDict :=
  [("mppt_min_voltage", 800), ("mppt_max_voltage", 850), ("vdc_max", 1000),
   ("idc_max", 280), ("max_power", 137000)]

/-- The literal inverter dict with its MPPT maximum at 810 V. -/
def inverterOddSumDict : PyDict :=
  [("mppt_min_voltage", 450), ("mppt_max_voltage", 810), ("vdc_max", 1000),
   ("idc_max", 280), ("max_power", 137000)]

/-- Projection lemma: the warnings of the string-sizing body. -/
theorem stringSizeCore_warnings (cd : Bool) (L : ℕ) (mp : ModuleParams) (inv : InverterParams) (site : SiteParams) (sf : ℚ) :
    (stringSizeCore cd L mp inv site sf).warnings = warningsList cd L mp inv site sf := rfl

/-- Projection lemma: the minimum bound of the string-sizing body. -/
theorem stringSizeCore_min (cd : Bool) (L : ℕ) (mp : ModuleParams) (inv : InverterParams) (site : SiteParams) (sf : ℚ) :
    (stringSizeCore cd L mp inv site sf).min_modules_per_string = minModules cd L mp inv site := rfl

/-- Projection lemma: the maximum bound of the string-sizing body. -/
theorem stringSizeCore_max (cd : Bool) (L : ℕ) (mp : ModuleParams) (inv : InverterParams) (site : SiteParams) (sf : ℚ) :
    (stringSizeCore cd L mp inv site sf).max_modules_per_string = maxModules mp inv site sf := rfl

/-- Projection lemma: the recommended value of the string-sizing body. -/
theorem stringSizeCore_recommended (cd : Bool) (L : ℕ) (mp : ModuleParams) (inv : InverterParams) (site : SiteParams) (sf : ℚ) :
    (stringSizeCore cd L mp inv site sf).recommended_modules_per_string = recommendedModules cd L mp inv site sf := rfl

/-- No warning apart from the critical incompatibility one carries the
`"No valid string"` message: every element of the tail block fails the
substring test of line 328. -/
theorem warningsRest_all_benign (cd : Bool) (L : ℕ) (mp : ModuleParams) (inv : InverterParams) (site : SiteParams) (sf : ℚ) :
    (warningsRest cd L mp inv site sf).all (fun w => !mentionsNoValidString w) = true := by
  unfold warningsRest
  split_ifs <;> rfl

/-- Membership form of `warningsRest_all_benign`. -/
theorem mentions_warningsRest (cd : Bool) (L : ℕ) (mp : ModuleParams) (inv : InverterParams) (site : SiteParams) (sf : ℚ) :
    ∀ w ∈ warningsRest cd L mp inv site sf, mentionsNoValidString w = false := by
  intro w hw
  have h := List.all_eq_true.mp (warningsRest_all_benign cd L mp inv site sf) w hw
  simpa using h

/-- A site dict whose maximum temperature lies below its minimum. -/
def siteTempSwappedDict : PyDict :=
  [("min_temp", 10), ("max_temp", -20), ("elevation", 0)]

/-- A module dict with a non-positive open-circuit voltage. -/
def moduleZeroVocDict : PyDict :=
  [("v_oc", 0), ("v_mp", 41.7), ("i_sc", 10.8), ("i_mp", 9.6),
   ("temp_coeff_v_oc", -0.28), ("temp_coeff_v_mp", -0.37)]

/-- C1: on the literal scenario input, `calculate_string_size` as
shipped raises `NameError` for the unbound `consider_degradation`
instead of returning; the arithmetic its body specifies (degradation
branch off) yields exactly the claimed values — maximum 16 modules per
string limited by `MPPT_max`, minimum 12, recommended 14. -/
theorem c1_literal_scenario :
    calculate_string_size moduleLitDict inverterLitDict siteLitDict 1
      = Except.error (PyError.nameError "consider_degradation")
    ∧ (stringSizeCore false 0 moduleLit inverterLit siteLit 1).max_modules_per_string = 16
    ∧ (stringSizeCore false 0 moduleLit inverterLit siteLit 1).limiting_factor_max = "MPPT_max"
    ∧ (stringSizeCore false 0 moduleLit inverterLit siteLit 1).min_modules_per_string = 12
    ∧ (stringSizeCore false 0 moduleLit inverterLit siteLit 1).recommended_modules_per_string = 14 := by
  refine ⟨?_, ?_, ?_, ?_, ?_⟩ <;> with_unfolding_all rfl

/-- C2: far from being total, all three operations raise on the
well-formed literal scenario input — the body of
`calculate_string_size` reads the name `consider_degradation`, which is
bound nowhere in the module, so every call fails with `NameError`, and
the other two operations propagate it from their initial
`calculate_string_size` call. -/
theorem c2_operations_raise_name_error :
    calculate_string_size moduleLitDict inverterLitDict siteLitDict 1
      = Except.error (PyError.nameError "consider_degradation")
    ∧ calculate_system_configuration 100 moduleLitDict inverterLitDict siteLitDict none
      = Except.error (PyError.nameError "consider_degradation")
    ∧ generate_configuration_table moduleLitDict inverterLitDict siteLitDict
      = Except.error (PyError.nameError "consider_degradation") := by
  refine ⟨?_, ?_, ?_⟩ <;> with_unfolding_all rfl

/-- C4: `generate_configuration_table` produces no rows to which the
claimed flag/bound relationship could apply: the shipped operation
raises `NameError` from `calculate_string_size`, and even with that name
bound the row loop fails with `KeyError "v_mp_hot"` on its first
iteration, because lines 435-438 read `voltages['v_mp_hot']` etc. while
the result dict stores only `v_mp_hot_bol`-style keys (and lines 447-448
would read the likewise-absent `inverter_params['mppt_min']`). -/
theorem c4_table_key_error :
    generate_configuration_table moduleLitDict inverterLitDict siteLitDict
      = Except.error (PyError.nameError "consider_degradation")
    ∧ genTableCore false 0 moduleLit inverterLit siteLit
      = Except.error (PyError.keyError "v_mp_hot") := by
  refine ⟨?_, ?_⟩ <;> with_unfolding_all rfl

/-- C6 counterexample: for the malformed input with
`max_temp = -20 < 10 = min_temp` (and likewise for a module with
`v_oc = 0`), every required field extracts successfully — no
field-naming validation error is raised — and the computation proceeds
into the body, where it fails with the unrelated `NameError` for
`consider_degradation`, not with any error naming an offending field. -/
theorem c6_validation_counterexample :
    (parseModuleParams moduleLitDict).isOk = true
    ∧ (parseSiteParams siteTempSwappedDict).isOk = true
    ∧ (parseInverterParams inverterLitDict).isOk = true
    ∧ calculate_string_size moduleLitDict inverterLitDict siteTempSwappedDict 1
        = Except.error (PyError.nameError "consider_degradation")
    ∧ (parseModuleParams moduleZeroVocDict).isOk = true
    ∧ calculate_string_size moduleZeroVocDict inverterLitDict siteLitDict 1
        = Except.error (PyError.nameError "consider_degradation") := by
  refine ⟨?_, ?_, ?_, ?_, ?_, ?_⟩ <;> with_unfolding_all rfl

/-- C6 amended: the only fail-fast validation is required-field
extraction, in the source read order of lines 77-93 — whichever
required key (`v_oc`, `v_mp`, `i_sc`, `i_mp`, `min_temp`, `max_temp`,
`mppt_min_voltage`, `mppt_max_voltage`, `vdc_max`) is the first one
absent, `calculate_string_size` fails with a `KeyError` naming exactly
that key, before any sizing computation; non-positive values and
inverted temperature ranges are never checked (see the
counterexample). -/
theorem c6_missing_field_amended (module_params inverter_params site_params : PyDict) (sf : ℚ) :
    (module_params.find? (fun p => p.1 == "v_oc") = none →
      calculate_string_size module_params inverter_params site_params sf
        = Except.error (PyError.keyError "v_oc"))
    ∧ ((module_params.find? (fun p => p.1 == "v_oc")).isSome = true →
       module_params.find? (fun p => p.1 == "v_mp") = none →
      calculate_string_size module_params inverter_params site_params sf
        = Except.error (PyError.keyError "v_mp"))
    ∧ ((module_params.find? (fun p => p.1 == "v_oc")).isSome = true →
       (module_params.find? (fun p => p.1 == "v_mp")).isSome = true →
       module_params.find? (fun p => p.1 == "i_sc") = none →
      calculate_string_size module_params inverter_params site_params sf
        = Except.error (PyError.keyError "i_sc"))
    ∧ ((module_params.find? (fun p => p.1 == "v_oc")).isSome = true →
       (module_params.find? (fun p => p.1 == "v_mp")).isSome = true →
       (module_params.find? (fun p => p.1 == "i_sc")).isSome = true →
       module_params.find? (fun p => p.1 == "i_mp") = none →
      calculate_string_size module_params inverter_params site_params sf
        = Except.error (PyError.keyError "i_mp"))
    ∧ ((module_params.find? (fun p => p.1 == "v_oc")).isSome = true →
       (module_params.find? (fun p => p.1 == "v_mp")).isSome = true →
       (module_params.find? (fun p => p.1 == "i_sc")).isSome = true →
       (module_params.find? (fun p => p.1 == "i_mp")).isSome = true →
       site_params.find? (fun p => p.1 == "min_temp") = none →
      calculate_string_size module_params inverter_params site_params sf
        = Except.error (PyError.keyError "min_temp"))
    ∧ ((module_params.find? (fun p => p.1 == "v_oc")).isSome = true →
       (module_params.find? (fun p => p.1 == "v_mp")).isSome = true →
       (module_params.find? (fun p => p.1 == "i_sc")).isSome = true →
       (module_params.find? (fun p => p.1 == "i_mp")).isSome = true →
       (site_params.find? (fun p => p.1 == "min_temp")).isSome = true →
       site_params.find? (fun p => p.1 == "max_temp") = none →
      calculate_string_size module_params inverter_params site_params sf
        = Except.error (PyError.keyError "max_temp"))
    ∧ ((module_params.find? (fun p => p.1 == "v_oc")).isSome = true →
       (module_params.find? (fun p => p.1 == "v_mp")).isSome = true →
       (module_params.find? (fun p => p.1 == "i_sc")).isSome = true →
       (module_params.find? (fun p => p.1 == "i_mp")).isSome = true →
       (site_params.find? (fun p => p.1 == "min_temp")).isSome = true →
       (site_params.find? (fun p => p.1 == "max_temp")).isSome = true →
       inverter_params.find? (fun p => p.1 == "mppt_min_voltage") = none →
      calculate_string_size module_params inverter_params site_params sf
        = Except.error (PyError.keyError "mppt_min_voltage"))
    ∧ ((module_params.find? (fun p => p.1 == "v_oc")).isSome = true →
       (module_params.find? (fun p => p.1 == "v_mp")).isSome = true →
       (module_params.find? (fun p => p.1 == "i_sc")).isSome = true →
       (module_params.find? (fun p => p.1 == "i_mp")).isSome = true →
       (site_params.find? (fun p => p.1 == "min_temp")).isSome = true →
       (site_params.find? (fun p => p.1 == "max_temp")).isSome = true →
       (inverter_params.find? (fun p => p.1 == "mppt_min_voltage")).isSome = true →
       inverter_params.find? (fun p => p.1 == "mppt_max_voltage") = none →
      calculate_string_size module_params inverter_params site_params sf
        = Except.error (PyError.keyError "mppt_max_voltage"))
    ∧ ((module_params.find? (fun p => p.1 == "v_oc")).isSome = true →
       (module_params.find? (fun p => p.1 == "v_mp")).isSome = true →
       (module_params.find? (fun p => p.1 == "i_sc")).isSome = true →
       (module_params.find? (fun p => p.1 == "i_mp")).isSome = true →
       (site_params.find? (fun p => p.1 == "min_temp")).isSome = true →
       (site_params.find? (fun p => p.1 == "max_temp")).isSome = true →
       (inverter_params.find? (fun p => p.1 == "mppt_min_voltage")).isSome = true →
       (inverter_params.find? (fun p => p.1 == "mppt_max_voltage")).isSome = true →
       inverter_params.find? (fun p => p.1 == "vdc_max") = none →
      calculate_string_size module_params inverter_params site_params sf
        = Except.error (PyError.keyError "vdc_max")) := by
  refine ⟨?_, ?_, ?_, ?_, ?_, ?_, ?_, ?_, ?_⟩
  · intro h1
    simp only [calculate_string_size, parseModuleParams, dictGet, h1]
    rfl
  · intro h1 h2
    obtain ⟨p1, hp1⟩ := Option.isSome_iff_exists.mp h1
    simp only [calculate_string_size, parseModuleParams, dictGet, hp1, h2]
    rfl
  · intro h1 h2 h3
    obtain ⟨p1, hp1⟩ := Option.isSome_iff_exists.mp h1
    obtain ⟨p2, hp2⟩ := Option.isSome_iff_exists.mp h2
    simp only [calculate_string_size, parseModuleParams, dictGet, hp1, hp2, h3]
    rfl
  · intro h1 h2 h3 h4
    obtain ⟨p1, hp1⟩ := Option.isSome_iff_exists.mp h1
    obtain ⟨p2, hp2⟩ := Option.isSome_iff_exists.mp h2
    obtain ⟨p3, hp3⟩ := Option.isSome_iff_exists.mp h3
    simp only [calculate_string_size, parseModuleParams, dictGet, hp1, hp2, hp3, h4]
    rfl
  · intro h1 h2 h3 h4 h5
    obtain ⟨p1, hp1⟩ := Option.isSome_iff_exists.mp h1
    obtain ⟨p2, hp2⟩ := Option.isSome_iff_exists.mp h2
    obtain ⟨p3, hp3⟩ := Option.isSome_iff_exists.mp h3
    obtain ⟨p4, hp4⟩ := Option.isSome_iff_exists.mp h4
    simp only [calculate_string_size, parseModuleParams, parseSiteParams, dictGet,
      hp1, hp2, hp3, hp4, h5]
    rfl
  · intro h1 h2 h3 h4 h5 h6
    obtain ⟨p1, hp1⟩ := Option.isSome_iff_exists.mp h1
    obtain ⟨p2, hp2⟩ := Option.isSome_iff_exists.mp h2
    obtain ⟨p3, hp3⟩ := Option.isSome_iff_exists.mp h3
    obtain ⟨p4, hp4⟩ := Option.isSome_iff_exists.mp h4
    obtain ⟨p5, hp5⟩ := Option.isSome_iff_exists.mp h5
    simp only [calculate_string_size, parseModuleParams, parseSiteParams, dictGet,
      hp1, hp2, hp3, hp4, hp5, h6]
    rfl
  · intro h1 h2 h3 h4 h5 h6 h7
    obtain ⟨p1, hp1⟩ := Option.isSome_iff_exists.mp h1
    obtain ⟨p2, hp2⟩ := Option.isSome_iff_exists.mp h2
    obtain ⟨p3, hp3⟩ := Option.isSome_iff_exists.mp h3
    obtain ⟨p4, hp4⟩ := Option.isSome_iff_exists.mp h4
    obtain ⟨p5, hp5⟩ := Option.isSome_iff_exists.mp h5
    obtain ⟨p6, hp6⟩ := Option.isSome_iff_exists.mp h6
    simp only [calculate_string_size, parseModuleParams, parseSiteParams,
      parseInverterParams, dictGet, hp1, hp2, hp3, hp4, hp5, hp6, h7]
    rfl
  · intro h1 h2 h3 h4 h5 h6 h7 h8
    obtain ⟨p1, hp1⟩ := Option.isSome_iff_exists.mp h1
    obtain ⟨p2, hp2⟩ := Option.isSome_iff_exists.mp h2
    obtain ⟨p3, hp3⟩ := Option.isSome_iff_exists.mp h3
    obtain ⟨p4, hp4⟩ := Option.isSome_iff_exists.mp h4
    obtain ⟨p5, hp5⟩ := Option.isSome_iff_exists.mp h5
    obtain ⟨p6, hp6⟩ := Option.isSome_iff_exists.mp h6
    obtain ⟨p7, hp7⟩ := Option.isSome_iff_exists.mp h7
    simp only [calculate_string_size, parseModuleParams, parseSiteParams,
      parseInverterParams, dictGet, hp1, hp2, hp3, hp4, hp5, hp6, hp7, h8]
    rfl
  · intro h1 h2 h3 h4 h5 h6 h7 h8 h9
    obtain ⟨p1, hp1⟩ := Option.isSome_iff_exists.mp h1
    obtain ⟨p2, hp2⟩ := Option.isSome_iff_exists.mp h2
    obtain ⟨p3, hp3⟩ := Option.isSome_iff_exists.mp h3
    obtain ⟨p4, hp4⟩ := Option.isSome_iff_exists.mp h4
    obtain ⟨p5, hp5⟩ := Option.isSome_iff_exists.mp h5
    obtain ⟨p6, hp6⟩ := Option.isSome_iff_exists.mp h6
    obtain ⟨p7, hp7⟩ := Option.isSome_iff_exists.mp h7
    obtain ⟨p8, hp8⟩ := Option.isSome_iff_exists.mp h8
    simp only [calculate_string_size, parseModuleParams, parseSiteParams,
      parseInverterParams, dictGet, hp1, hp2, hp3, hp4, hp5, hp6, hp7, hp8, h9]
    rfl

/-- The incompatibility test of line 328 succeeds exactly when the
computed minimum exceeds the computed maximum: the critical warning is
appended first (line 246) and no other warning passes the substring
test. -/
theorem incompatCheck_iff (cd : Bool) (L : ℕ) (mp : ModuleParams) (inv : InverterParams) (site : SiteParams) (sf : ℚ) :
    incompatCheck (stringSizeCore cd L mp inv site sf) = true
      ↔ minModules cd L mp inv site > maxModules mp inv site sf := by
  unfold incompatCheck
  rw [stringSizeCore_warnings]
  unfold warningsList
  by_cases h : minModules cd L mp inv site > maxModules mp inv site sf
  · rw [if_pos h]
    simpa [mentionsNoValidString] using h
  · rw [if_neg h]
    simp only [List.nil_append]
    constructor
    · intro hm
      exfalso
      cases hrest : warningsRest cd L mp inv site sf with
      | nil => rw [hrest] at hm; cases hm
      | cons w t =>
        rw [hrest] at hm
        have hb : mentionsNoValidString w = false :=
          mentions_warningsRest cd L mp inv site sf w (by rw [hrest]; exact List.mem_cons_self w t)
        rw [show (match w :: t with
              | [] => false
              | w :: _ => mentionsNoValidString w) = mentionsNoValidString w from rfl, hb] at hm
        cases hm
    · intro hm; exact absurd hm h

/-- The post-incompatibility part of `calculate_system_configuration`
never returns the incompatibility dict: every branch is an exception or
a full configuration. -/
theorem sysConfigRest_not_incompat (kw : ℚ) (mp : ModuleParams) (inv : InverterParams) (mps0 : Option ℤ) (sr : StringSizingResult) :
    isIncompatibleOutcome (sysConfigRest kw mp inv mps0 sr) = false := by
  unfold sysConfigRest
  split_ifs <;> try rfl
  cases inv.max_power with
  | none => rfl
  | some P =>
    simp only
    split_ifs <;> rfl

/-- Body-level analysis: whenever the computed minimum exceeds the
computed maximum (for every resolution `cd`, `L` of the two unbound
names), the body of
`calculate_string_size` puts the critical incompatibility warning first
in the warnings list, the table body returns the empty sequence, and the
system-configuration body returns the explicit incompatible result
carrying the string-sizing detail and no partial configuration. -/
theorem incompatPropagation_body (cd : Bool) (L : ℕ) (mp : ModuleParams) (inv : InverterParams) (site : SiteParams) (sf kw : ℚ) (mps0 : Option ℤ)
    (h : minModules cd L mp inv site > maxModules mp inv site sf)
    (h1 : minModules cd L mp inv site > maxModules mp inv site 1) :
    (stringSizeCore cd L mp inv site sf).warnings.head?
        = some (Warning.noValidString (minModules cd L mp inv site) (maxModules mp inv site sf))
    ∧ genTableCore cd L mp inv site = Except.ok []
    ∧ sysConfigCore cd L kw mp inv site mps0
        = Except.ok (SystemOutcome.incompatible "Module and inverter are incompatible"
            (stringSizeCore cd L mp inv site 1)) := by
  refine ⟨?_, ?_, ?_⟩
  · rw [stringSizeCore_warnings]
    unfold warningsList
    rw [if_pos h]
    rfl
  · unfold genTableCore genTableBody
    rw [stringSizeCore_min, stringSizeCore_max, if_pos h1]
  · have hc : incompatCheck (stringSizeCore cd L mp inv site 1) = true :=
      (incompatCheck_iff cd L mp inv site 1).mpr h1
    unfold sysConfigCore sysConfigBody
    rw [if_pos hc]

/-- C3: the claimed reactions to an incompatible configuration never
happen in the shipped code — on a concrete input with computed minimum
21 > maximum 18 (MPPT window 800-850 V against the literal module), all
three operations raise `NameError` at line 109 before any warning,
table or result exists.  Supporting analysis over the body semantics
(`incompatPropagation_body` instantiated here): the computation lines
246, 429-430 and 328-332 specify does put the critical warning first,
return the empty table, and return the explicit incompatible result
carrying the string-sizing detail and no partial configuration. -/
theorem c3_incompatible_code_bug :
    calculate_string_size moduleLitDict inverterIncompatDict siteLitDict 1
      = Except.error (PyError.nameError "consider_degradation")
    ∧ generate_configuration_table moduleLitDict inverterIncompatDict siteLitDict
      = Except.error (PyError.nameError "consider_degradation")
    ∧ calculate_system_configuration 100 moduleLitDict inverterIncompatDict siteLitDict none
      = Except.error (PyError.nameError "consider_degradation")
    ∧ (stringSizeCore false 0 moduleLit inverterIncompat siteLit 1).warnings.head?
        = some (Warning.noValidString 21 18)
    ∧ genTableCore false 0 moduleLit inverterIncompat siteLit = Except.ok []
    ∧ sysConfigCore false 0 100 moduleLit inverterIncompat siteLit none
        = Except.ok (SystemOutcome.incompatible "Module and inverter are incompatible"
            (stringSizeCore false 0 moduleLit inverterIncompat siteLit 1)) := by
  obtain ⟨ha, hb, hc⟩ :=
    incompatPropagation_body false 0 moduleLit inverterIncompat siteLit 1 100 none
      (by with_unfolding_all decide) (by with_unfolding_all decide)
  refine ⟨by with_unfolding_all rfl, by with_unfolding_all rfl,
    by with_unfolding_all rfl, ?_, hb, hc⟩
  rw [ha]
  have h21 : minModules false 0 moduleLit inverterIncompat siteLit = 21 := by
    with_unfolding_all rfl
  have h18 : maxModules moduleLit inverterIncompat siteLit 1 = 18 := by
    with_unfolding_all rfl
  rw [h21, h18]

/-- Body-level analysis: the critical warning occupies position zero of
the warnings list exactly when the minimum exceeds the maximum, the
line-328 check of
`calculate_system_configuration` — which inspects only the first warning
— succeeds exactly then, and the incompatible error result is returned
exactly then (for every resolution of the two unbound names). -/
theorem firstWarningDetection_body (cd : Bool) (L : ℕ) (mp : ModuleParams) (inv : InverterParams) (site : SiteParams) (sf kw : ℚ) (mps0 : Option ℤ) :
    ((stringSizeCore cd L mp inv site sf).warnings.head?
        = some (Warning.noValidString (minModules cd L mp inv site) (maxModules mp inv site sf))
      ↔ minModules cd L mp inv site > maxModules mp inv site sf)
    ∧ (incompatCheck (stringSizeCore cd L mp inv site 1) = true
      ↔ minModules cd L mp inv site > maxModules mp inv site 1)
    ∧ (isIncompatibleOutcome (sysConfigCore cd L kw mp inv site mps0) = true
      ↔ minModules cd L mp inv site > maxModules mp inv site 1) := by
  refine ⟨?_, incompatCheck_iff cd L mp inv site 1, ?_⟩
  · constructor
    · intro hm
      by_contra h
      rw [stringSizeCore_warnings] at hm
      unfold warningsList at hm
      rw [if_neg h] at hm
      simp only [List.nil_append] at hm
      cases hrest : warningsRest cd L mp inv site sf with
      | nil => rw [hrest] at hm; cases hm
      | cons w t =>
        rw [hrest] at hm
        have hb : mentionsNoValidString w = false :=
          mentions_warningsRest cd L mp inv site sf w (by rw [hrest]; exact List.mem_cons_self w t)
        have hw : w = Warning.noValidString (minModules cd L mp inv site) (maxModules mp inv site sf) := by
          simpa using hm
        rw [hw] at hb
        cases hb
    · intro h
      rw [stringSizeCore_warnings]
      unfold warningsList
      rw [if_pos h]
      rfl
  · unfold sysConfigCore sysConfigBody
    by_cases hc : incompatCheck (stringSizeCore cd L mp inv site 1) = true
    · rw [if_pos hc]
      constructor
      · intro _
        exact (incompatCheck_iff cd L mp inv site 1).mp hc
      · intro _
        rfl
    · rw [if_neg hc, sysConfigRest_not_incompat]
      simp only [Bool.false_eq_true, false_iff]
      intro hgt
      exact hc ((incompatCheck_iff cd L mp inv site 1).mpr hgt)

/-- C9: no result of `calculate_string_size` and no return of
`calculate_system_configuration` exists in the shipped code to carry
the claimed first-warning behaviour — both raise `NameError` on
concrete incompatible and compatible inputs alike.  Supporting analysis
over the body semantics (`firstWarningDetection_body` is the general
iff chain): at the incompatible input the critical warning sits at
position zero, the line-328 first-warning check succeeds and the
incompatible result is returned; at the compatible literal input all
three fail. -/
theorem c9_first_warning_code_bug :
    calculate_string_size moduleLitDict inverterIncompatDict siteLitDict 1
      = Except.error (PyError.nameError "consider_degradation")
    ∧ calculate_system_configuration 100 moduleLitDict inverterLitDict siteLitDict none
      = Except.error (PyError.nameError "consider_degradation")
    ∧ (stringSizeCore false 0 moduleLit inverterIncompat siteLit 1).warnings.head?
        = some (Warning.noValidString 21 18)
    ∧ incompatCheck (stringSizeCore false 0 moduleLit inverterIncompat siteLit 1) = true
    ∧ isIncompatibleOutcome (sysConfigCore false 0 100 moduleLit inverterIncompat siteLit none) = true
    ∧ incompatCheck (stringSizeCore false 0 moduleLit inverterLit siteLit 1) = false
    ∧ isIncompatibleOutcome (sysConfigCore false 0 100 moduleLit inverterLit siteLit none) = false := by
  refine ⟨?_, ?_, ?_, ?_, ?_, ?_, ?_⟩ <;> with_unfolding_all rfl

/-- Body-level analysis: for a fixed module and site and every resolution of the two
unbound names, raising the inverter's MPPT maximum never decreases the
computed maximum modules per string, and raising the MPPT minimum never
decreases the computed minimum — provided the cold and hot Vmp values
are positive (and the degradation factor nonnegative), the regime in
which Python's divisions are defined and order-preserving. -/
theorem mpptMonotonicity_body (cd : Bool) (L : ℕ) (mp : ModuleParams) (site : SiteParams) (inv : InverterParams) (sf : ℚ) (a b : ℚ)
    (hcold : 0 < vMpCold mp site) (hhot : 0 < vMpHotBol mp site)
    (hdeg : 0 ≤ degradationFactor cd L mp) (hab : a ≤ b) :
    (stringSizeCore cd L mp { inv with mppt_max_voltage := a } site sf).max_modules_per_string
      ≤ (stringSizeCore cd L mp { inv with mppt_max_voltage := b } site sf).max_modules_per_string
    ∧ (stringSizeCore cd L mp { inv with mppt_min_voltage := a } site sf).min_modules_per_string
      ≤ (stringSizeCore cd L mp { inv with mppt_min_voltage := b } site sf).min_modules_per_string := by
  constructor
  · show min (maxModulesVoc mp { inv with mppt_max_voltage := a } site sf)
        (Int.floor (a / vMpCold mp site))
      ≤ min (maxModulesVoc mp { inv with mppt_max_voltage := b } site sf)
        (Int.floor (b / vMpCold mp site))
    have hv : maxModulesVoc mp { inv with mppt_max_voltage := a } site sf
        = maxModulesVoc mp { inv with mppt_max_voltage := b } site sf := rfl
    rw [hv]
    exact min_le_min (le_refl _) (Int.floor_le_floor ((div_le_div_iff_of_pos_right hcold).mpr hab))
  · cases cd with
    | false =>
      show max 1 (Int.ceil (a / vMpHotBol mp site)) ≤ max 1 (Int.ceil (b / vMpHotBol mp site))
      exact max_le_max (le_refl 1) (Int.ceil_le_ceil ((div_le_div_iff_of_pos_right hhot).mpr hab))
    | true =>
      show max 1 (max (Int.ceil (a / vMpHotBol mp site)) (Int.ceil (a / vMpHotEol true L mp site)))
        ≤ max 1 (max (Int.ceil (b / vMpHotBol mp site)) (Int.ceil (b / vMpHotEol true L mp site)))
      refine max_le_max (le_refl 1)
        (max_le_max (Int.ceil_le_ceil ((div_le_div_iff_of_pos_right hhot).mpr hab)) ?_)
      have hnn : 0 ≤ vMpHotEol true L mp site := by
        show 0 ≤ vMpHotBol mp site * degradationFactor true L mp
        exact mul_nonneg hhot.le hdeg
      rcases hnn.eq_or_lt with h0 | hpos
      · rw [← h0, div_zero, div_zero]
      · exact Int.ceil_le_ceil ((div_le_div_iff_of_pos_right hpos).mpr hab)

/-- C7: the bounds the claim compares are never returned — the shipped
`calculate_string_size` raises `NameError` on both elements of a
concrete inverter pair differing only in `mppt_max_voltage` (800 V and
810 V).  Supporting analysis over the body semantics
(`mpptMonotonicity_body` instantiated here): the computed maximum is
monotone in the MPPT maximum (16 at 800 V, 17 at 810 V) and the
computed minimum is monotone in the MPPT minimum. -/
theorem c7_monotonicity_code_bug :
    calculate_string_size moduleLitDict inverterLitDict siteLitDict 1
      = Except.error (PyError.nameError "consider_degradation")
    ∧ calculate_string_size moduleLitDict inverterOddSumDict siteLitDict 1
      = Except.error (PyError.nameError "consider_degradation")
    ∧ (stringSizeCore false 0 moduleLit { inverterLit with mppt_max_voltage := 800 } siteLit 1).max_modules_per_string
        ≤ (stringSizeCore false 0 moduleLit { inverterLit with mppt_max_voltage := 810 } siteLit 1).max_modules_per_string
    ∧ (stringSizeCore false 0 moduleLit { inverterLit with mppt_min_voltage := 800 } siteLit 1).min_modules_per_string
        ≤ (stringSizeCore false 0 moduleLit { inverterLit with mppt_min_voltage := 810 } siteLit 1).min_modules_per_string := by
  obtain ⟨h1, h2⟩ := mpptMonotonicity_body false 0 moduleLit siteLit inverterLit 1 800 810
    (by with_unfolding_all decide) (by with_unfolding_all decide)
    (by with_unfolding_all decide) (by with_unfolding_all decide)
  exact ⟨by with_unfolding_all rfl, by with_unfolding_all rfl, h1, h2⟩

/-- Rounding an odd integer halved, NumPy-style: the result is the even
neighbour of the half-integer midpoint, one half step up or down. -/
theorem roundHalfEven_odd (s : ℤ) (h : s % 2 = 1) :
    roundHalfEven ((s : ℚ) / 2) % 2 = 0
    ∧ (2 * roundHalfEven ((s : ℚ) / 2) - s = 1 ∨ 2 * roundHalfEven ((s : ℚ) / 2) - s = -1) := by
  have hs : s = 2 * (s / 2) + 1 := by omega
  have hcast : (s : ℚ) = 2 * ((s / 2 : ℤ) : ℚ) + 1 := by
    conv_lhs => rw [hs]
    push_cast
    ring
  have hhalf : (s : ℚ) / 2 = ((s / 2 : ℤ) : ℚ) + 1/2 := by
    rw [hcast]
    ring
  have hfloor : Int.floor ((s : ℚ) / 2) = s / 2 := by
    rw [hhalf, add_comm, Int.floor_add_int]
    norm_num
  unfold roundHalfEven
  rw [hfloor]
  have hr : (s : ℚ) / 2 - ((s / 2 : ℤ) : ℚ) = 1/2 := by
    rw [hhalf]
    ring
  rw [hr]
  rw [if_neg (by norm_num), if_neg (by norm_num)]
  by_cases hk2 : s / 2 % 2 = 0
  · rw [if_pos hk2]
    exact ⟨hk2, Or.inr (by omega)⟩
  · rw [if_neg hk2]
    exact ⟨by omega, Or.inl (by omega)⟩

/-- Body-level analysis: whenever the computed minimum and maximum have
an odd sum, the recommended modules per string is even — NumPy's `np.round` resolves the
half-integer midpoint to the nearest even integer, not to its ceiling —
landing half a step above or below the midpoint. -/
theorem recommendedHalfEven_body (cd : Bool) (L : ℕ) (mp : ModuleParams) (inv : InverterParams) (site : SiteParams) (sf : ℚ)
    (h : ((stringSizeCore cd L mp inv site sf).min_modules_per_string
          + (stringSizeCore cd L mp inv site sf).max_modules_per_string) % 2 = 1) :
    (stringSizeCore cd L mp inv site sf).recommended_modules_per_string % 2 = 0
    ∧ (2 * (stringSizeCore cd L mp inv site sf).recommended_modules_per_string
        - ((stringSizeCore cd L mp inv site sf).min_modules_per_string
           + (stringSizeCore cd L mp inv site sf).max_modules_per_string) = 1
       ∨ 2 * (stringSizeCore cd L mp inv site sf).recommended_modules_per_string
        - ((stringSizeCore cd L mp inv site sf).min_modules_per_string
           + (stringSizeCore cd L mp inv site sf).max_modules_per_string) = -1) := by
  rw [stringSizeCore_min, stringSizeCore_max] at h
  rw [stringSizeCore_min, stringSizeCore_max, stringSizeCore_recommended]
  unfold recommendedModules
  rw [show ((minModules cd L mp inv site : ℚ) + (maxModules mp inv site sf : ℚ))
      = ((minModules cd L mp inv site + maxModules mp inv site sf : ℤ) : ℚ) by push_cast; ring]
  exact roundHalfEven_odd _ h

/-- C10: `recommended_modules_per_string` belongs to a result the
shipped `calculate_string_size` never produces — the concrete call
raises `NameError` at line 109.  Supporting analysis over the body
semantics (`recommendedHalfEven_body` instantiated for the parity):
with the MPPT maximum at 810 V the bounds are 12 and 17 (odd sum), and
`np.round`'s half-to-even gives the even 14, not the ceiling 15 of the
midpoint 14.5. -/
theorem c10_half_even_code_bug :
    calculate_string_size moduleLitDict inverterOddSumDict siteLitDict 1
      = Except.error (PyError.nameError "consider_degradation")
    ∧ ((stringSizeCore false 0 moduleLit inverterOddSum siteLit 1).min_modules_per_string
        + (stringSizeCore false 0 moduleLit inverterOddSum siteLit 1).max_modules_per_string) % 2 = 1
    ∧ (stringSizeCore false 0 moduleLit inverterOddSum siteLit 1).min_modules_per_string = 12
    ∧ (stringSizeCore false 0 moduleLit inverterOddSum siteLit 1).max_modules_per_string = 17
    ∧ (stringSizeCore false 0 moduleLit inverterOddSum siteLit 1).recommended_modules_per_string = 14
    ∧ (stringSizeCore false 0 moduleLit inverterOddSum siteLit 1).recommended_modules_per_string % 2 = 0
    ∧ (stringSizeCore false 0 moduleLit inverterOddSum siteLit 1).recommended_modules_per_string
        ≠ Int.ceil ((((stringSizeCore false 0 moduleLit inverterOddSum siteLit 1).min_modules_per_string : ℚ)
            + ((stringSizeCore false 0 moduleLit inverterOddSum siteLit 1).max_modules_per_string : ℚ)) / 2) := by
  refine ⟨by with_unfolding_all rfl, by with_unfolding_all decide,
    by with_unfolding_all rfl, by with_unfolding_all rfl, by with_unfolding_all rfl,
    (recommendedHalfEven_body false 0 moduleLit inverterOddSum siteLit 1 (by with_unfolding_all decide)).1,
    by with_unfolding_all decide⟩

/-- The post-incompatibility part of `calculate_system_configuration`
returns the full configuration record whenever `max_power` is present
and no divisor is zero. -/
theorem sysConfigRest_success (kw : ℚ) (mp : ModuleParams) (inv : InverterParams) (mps0 : Option ℤ) (sr : StringSizingResult) (P : ℚ)
    (hP : inv.max_power = some P)
    (h1 : modulePowerW mp ≠ 0)
    (h2 : modulesPerStringChosen sr mps0 ≠ 0)
    (h3 : powerPerStringOf mp sr mps0 ≠ 0)
    (h4 : maxStringsPerInverterOf mp sr mps0 P ≠ 0)
    (h5 : numInvertersOf kw mp sr mps0 P ≠ 0) :
    sysConfigRest kw mp inv mps0 sr
      = Except.ok (SystemOutcome.ok (systemConfigurationOf kw mp inv mps0 sr P)) := by
  unfold sysConfigRest
  rw [if_neg h1, if_neg h2, if_neg h3]
  simp only [hP]
  rw [if_neg h4, if_neg h5]

/-- Body-level analysis: on the success path of the
system-configuration body (the incompatibility check fails,
`max_power` is present, every divisor is
nonzero and the inverter count positive), the returned configuration
conserves modules and strings exactly: the actual module count is
`total_strings * modules_per_string`, the distribution satisfies
`num_inverters * strings_per_inverter + extra_strings = total_strings`
with `0 ≤ extra_strings < num_inverters`, and splitting the inverters
into `extra_strings` carrying one extra string and the rest carrying the
base count accounts for every string — so any two inverters differ by at
most one string. -/
theorem sysConservation_body (cd : Bool) (L : ℕ) (kw : ℚ) (mp : ModuleParams) (inv : InverterParams) (site : SiteParams) (mps0 : Option ℤ) (P : ℚ) (sr : StringSizingResult)
    (hsr : stringSizeCore cd L mp inv site 1 = sr)
    (h0 : incompatCheck sr = false)
    (hP : inv.max_power = some P)
    (h1 : modulePowerW mp ≠ 0)
    (h2 : modulesPerStringChosen sr mps0 ≠ 0)
    (h3 : powerPerStringOf mp sr mps0 ≠ 0)
    (h4 : maxStringsPerInverterOf mp sr mps0 P ≠ 0)
    (h5 : 0 < numInvertersOf kw mp sr mps0 P) :
    sysConfigCore cd L kw mp inv site mps0
      = Except.ok (SystemOutcome.ok (systemConfigurationOf kw mp inv mps0 sr P))
    ∧ actualModulesOf kw mp sr mps0
        = totalStringsOf kw mp sr mps0 * modulesPerStringChosen sr mps0
    ∧ numInvertersOf kw mp sr mps0 P * stringsPerInverterOf kw mp sr mps0 P
        + extraStringsOf kw mp sr mps0 P = totalStringsOf kw mp sr mps0
    ∧ 0 ≤ extraStringsOf kw mp sr mps0 P
    ∧ extraStringsOf kw mp sr mps0 P < numInvertersOf kw mp sr mps0 P
    ∧ extraStringsOf kw mp sr mps0 P * (stringsPerInverterOf kw mp sr mps0 P + 1)
        + (numInvertersOf kw mp sr mps0 P - extraStringsOf kw mp sr mps0 P)
          * stringsPerInverterOf kw mp sr mps0 P
      = totalStringsOf kw mp sr mps0 := by
  have hn0 : (0 : ℤ) ≤ numInvertersOf kw mp sr mps0 P := le_of_lt h5
  have hkey : numInvertersOf kw mp sr mps0 P * stringsPerInverterOf kw mp sr mps0 P
      + extraStringsOf kw mp sr mps0 P = totalStringsOf kw mp sr mps0 := by
    unfold stringsPerInverterOf extraStringsOf
    rw [Int.fdiv_eq_ediv _ hn0, Int.fmod_eq_emod _ hn0]
    exact Int.ediv_add_emod _ _
  refine ⟨?_, rfl, hkey, ?_, ?_, ?_⟩
  · subst hsr
    unfold sysConfigCore sysConfigBody
    rw [if_neg (by simp [h0])]
    exact sysConfigRest_success kw mp inv mps0 _ P hP h1 h2 h3 h4 (ne_of_gt h5)
  · unfold extraStringsOf
    rw [Int.fmod_eq_emod _ hn0]
    exact Int.emod_nonneg _ (ne_of_gt h5)
  · unfold extraStringsOf
    rw [Int.fmod_eq_emod _ hn0]
    exact Int.emod_lt_of_pos _ h5
  · calc extraStringsOf kw mp sr mps0 P * (stringsPerInverterOf kw mp sr mps0 P + 1)
          + (numInvertersOf kw mp sr mps0 P - extraStringsOf kw mp sr mps0 P)
            * stringsPerInverterOf kw mp sr mps0 P
        = numInvertersOf kw mp sr mps0 P * stringsPerInverterOf kw mp sr mps0 P
          + extraStringsOf kw mp sr mps0 P := by ring
      _ = totalStringsOf kw mp sr mps0 := hkey

/-- C8: `calculate_system_configuration` has no successful results to
conserve anything — the shipped call on the literal 100 kW scenario
raises `NameError` through its line-324 `calculate_string_size` call.
Supporting analysis over the body semantics (`sysConservation_body`
instantiated here): the configuration lines 335-403 specify distributes
252 modules as 18 strings of 14 across one inverter with no remainder,
and all the conservation identities hold. -/
theorem c8_conservation_code_bug :
    calculate_system_configuration 100 moduleLitDict inverterLitDict siteLitDict none
      = Except.error (PyError.nameError "consider_degradation")
    ∧ sysConfigCore false 0 100 moduleLit inverterLit siteLit none
      = Except.ok (SystemOutcome.ok (systemConfigurationOf 100 moduleLit inverterLit none
          (stringSizeCore false 0 moduleLit inverterLit siteLit 1) 137000))
    ∧ actualModulesOf 100 moduleLit (stringSizeCore false 0 moduleLit inverterLit siteLit 1) none
        = totalStringsOf 100 moduleLit (stringSizeCore false 0 moduleLit inverterLit siteLit 1) none
          * modulesPerStringChosen (stringSizeCore false 0 moduleLit inverterLit siteLit 1) none
    ∧ numInvertersOf 100 moduleLit (stringSizeCore false 0 moduleLit inverterLit siteLit 1) none 137000
        * stringsPerInverterOf 100 moduleLit (stringSizeCore false 0 moduleLit inverterLit siteLit 1) none 137000
        + extraStringsOf 100 moduleLit (stringSizeCore false 0 moduleLit inverterLit siteLit 1) none 137000
      = totalStringsOf 100 moduleLit (stringSizeCore false 0 moduleLit inverterLit siteLit 1) none
    ∧ 0 ≤ extraStringsOf 100 moduleLit (stringSizeCore false 0 moduleLit inverterLit siteLit 1) none 137000
    ∧ extraStringsOf 100 moduleLit (stringSizeCore false 0 moduleLit inverterLit siteLit 1) none 137000
        < numInvertersOf 100 moduleLit (stringSizeCore false 0 moduleLit inverterLit siteLit 1) none 137000 := by
  obtain ⟨ha, hb, hc, hd, he, _⟩ :=
    sysConservation_body false 0 100 moduleLit inverterLit siteLit none 137000
      (stringSizeCore false 0 moduleLit inverterLit siteLit 1) rfl
      (by with_unfolding_all decide) rfl (by with_unfolding_all decide)
      (by with_unfolding_all decide) (by with_unfolding_all decide)
      (by with_unfolding_all decide) (by with_unfolding_all decide)
  exact ⟨by with_unfolding_all rfl, ha, hb, hc, hd, he⟩

/-- C5 counterexample: the literal scenario's inverter supplies no
`ac_power`, and the shipped `calculate_system_configuration` does not
return `dc_ac_ratio = None` there — it raises `NameError` at line 109
via its line-324 `calculate_string_size` call and returns nothing at
all; and even the computation its body specifies (unbound names
resolved) yields a ratio that is not `None`, because line 380 falls
back to `max_power / 1000` instead of reporting `None`. -/
theorem c5_dc_ac_ratio_counterexample :
    inverterLit.ac_power = none
    ∧ calculate_system_configuration 100 moduleLitDict inverterLitDict siteLitDict none
        = Except.error (PyError.nameError "consider_degradation")
    ∧ outcomeDcAcRatio (sysConfigCore false 0 100 moduleLit inverterLit siteLit none) ≠ none
    ∧ outcomeDcAcRatio (sysConfigCore false 0 100 moduleLit inverterLit siteLit none) ≠ some none := by
  refine ⟨rfl, by with_unfolding_all rfl, ?_, ?_⟩ <;> with_unfolding_all decide

/-- C5 amended: the shipped operation returns nothing at all
(`NameError`; proved in the counterexample and the C2 theorem), so no
returned ratio is ever `None`.  In the body semantics lines 379-381
specify (unbound names resolved), on the success path: when
`ac_power = a` is supplied and the total `num_inverters * a` is
positive, `dc_ac_ratio` is the achieved DC capacity divided by that
total; when `ac_power` is absent the ratio is not `None` but the
achieved DC capacity divided by `num_inverters * (max_power / 1000)`
whenever that is positive. -/
theorem c5_dc_ac_ratio_amended (cd : Bool) (L : ℕ) (kw : ℚ) (mp : ModuleParams) (inv : InverterParams) (site : SiteParams) (mps0 : Option ℤ) (P : ℚ) (sr : StringSizingResult)
    (hsr : stringSizeCore cd L mp inv site 1 = sr)
    (h0 : incompatCheck sr = false)
    (hP : inv.max_power = some P)
    (h1 : modulePowerW mp ≠ 0)
    (h2 : modulesPerStringChosen sr mps0 ≠ 0)
    (h3 : powerPerStringOf mp sr mps0 ≠ 0)
    (h4 : maxStringsPerInverterOf mp sr mps0 P ≠ 0)
    (h5 : numInvertersOf kw mp sr mps0 P ≠ 0) :
    sysConfigCore cd L kw mp inv site mps0
      = Except.ok (SystemOutcome.ok (systemConfigurationOf kw mp inv mps0 sr P))
    ∧ (∀ a, inv.ac_power = some a → 0 < (numInvertersOf kw mp sr mps0 P : ℚ) * a →
        (systemConfigurationOf kw mp inv mps0 sr P).dc_ac_ratio
          = some (actualSizeKwOf kw mp sr mps0 / ((numInvertersOf kw mp sr mps0 P : ℚ) * a)))
    ∧ (inv.ac_power = none → 0 < (numInvertersOf kw mp sr mps0 P : ℚ) * (P / 1000) →
        (systemConfigurationOf kw mp inv mps0 sr P).dc_ac_ratio
          = some (actualSizeKwOf kw mp sr mps0 / ((numInvertersOf kw mp sr mps0 P : ℚ) * (P / 1000)))) := by
  refine ⟨?_, ?_, ?_⟩
  · subst hsr
    unfold sysConfigCore sysConfigBody
    rw [if_neg (by simp [h0])]
    exact sysConfigRest_success kw mp inv mps0 _ P hP h1 h2 h3 h4 h5
  · intro a ha hpos
    show dcAcRatioOf kw mp inv sr mps0 P = _
    unfold dcAcRatioOf totalInverterPowerOf
    rw [ha]
    simp only [Option.getD_some]
    rw [if_pos hpos]
  · intro ha hpos
    show dcAcRatioOf kw mp inv sr mps0 P = _
    unfold dcAcRatioOf totalInverterPowerOf
    rw [ha]
    simp only [Option.getD_none]
    rw [if_pos hpos]

/-- C5 amended, witness: with the catalog `ac_power = 100000` supplied,
the literal 100 kW scenario's ratio is the achieved capacity divided by
`num_inverters * ac_power`. -/
theorem c5_dc_ac_ratio_amended_witness :
    sysConfigCore false 0 100 moduleLit inverterLitAc siteLit none
      = Except.ok (SystemOutcome.ok (systemConfigurationOf 100 moduleLit inverterLitAc none
          (stringSizeCore false 0 moduleLit inverterLitAc siteLit 1) 137000))
    ∧ (systemConfigurationOf 100 moduleLit inverterLitAc none
          (stringSizeCore false 0 moduleLit inverterLitAc siteLit 1) 137000).dc_ac_ratio
        = some (actualSizeKwOf 100 moduleLit (stringSizeCore false 0 moduleLit inverterLitAc siteLit 1) none
            / ((numInvertersOf 100 moduleLit (stringSizeCore false 0 moduleLit inverterLitAc siteLit 1) none 137000 : ℚ)
               * 100000)) := by
  obtain ⟨ha, hb, _⟩ :=
    c5_dc_ac_ratio_amended false 0 100 moduleLit inverterLitAc siteLit none 137000
      (stringSizeCore false 0 moduleLit inverterLitAc siteLit 1) rfl
      (by with_unfolding_all decide) rfl (by with_unfolding_all decide)
      (by with_unfolding_all decide) (by with_unfolding_all decide)
      (by with_unfolding_all decide) (by with_unfolding_all decide)
  exact ⟨ha, hb 100000 rfl (by with_unfolding_all decide)⟩

/-- C6 amended, witness: the empty module dict is missing `v_oc`; a
site dict holding only `min_temp` is missing `max_temp`; an empty
inverter dict is missing `mppt_min_voltage` — each call fails with the
`KeyError` naming exactly the first absent required key. -/
theorem c6_missing_field_amended_witness :
    calculate_string_size [] [] [] 1 = Except.error (PyError.keyError "v_oc")
    ∧ calculate_string_size moduleLitDict inverterLitDict [("min_temp", 10)] 1
        = Except.error (PyError.keyError "max_temp")
    ∧ calculate_string_size moduleLitDict [] siteLitDict 1
        = Except.error (PyError.keyError "mppt_min_voltage") := by
  refine ⟨?_, ?_, ?_⟩
  · exact (c6_missing_field_amended [] [] [] 1).1 rfl
  · exact (c6_missing_field_amended moduleLitDict inverterLitDict [("min_temp", 10)] 1).2.2.2.2.2.1
      (by with_unfolding_all decide) (by with_unfolding_all decide)
      (by with_unfolding_all decide) (by with_unfolding_all decide)
      (by with_unfolding_all decide) (by with_unfolding_all decide)
  · exact (c6_missing_field_amended moduleLitDict [] siteLitDict 1).2.2.2.2.2.2.1
      (by with_unfolding_all decide) (by with_unfolding_all decide)
      (by with_unfolding_all decide) (by with_unfolding_all decide)
      (by with_unfolding_all decide) (by with_unfolding_all decide)
      (by with_unfolding_all decide)

end StringSizing
